import Mathlib

/-!
Shallow embedding of the `plotters-gtk4` drawing backend.

The GTK snapshot recorder is modelled as an append-only list of operations
(`SnapOp`); `f32`/`f64` values are modelled as rationals; the pango text
measurement engine is modelled as an oracle function carried by the layout.
Every drawing function mirrors the corresponding Rust function in
`src/common.rs`, `src/snapshot.rs` or `src/paintable.rs`.
-/

namespace PlottersGtk4

/-- Floating-point values (`f32`/`f64` in the source) are modelled as rationals. -/
abbrev F32 := ℚ

/-- `gdk::RGBA`: four channels. -/
structure RGBA where
  red : F32
  green : F32
  blue : F32
  alpha : F32
deriving DecidableEq, Repr

/-- `graphene::Point`. -/
structure GPoint where
  x : F32
  y : F32
deriving DecidableEq, Repr

/-- `graphene::Rect` as built by `Rect::new(x, y, width, height)`. -/
structure GRect where
  x : F32
  y : F32
  width : F32
  height : F32
deriving DecidableEq, Repr

/-- `gsk::FillRule` (only the two values used by the crate). -/
inductive FillRule where
  | winding
  | evenOdd
deriving DecidableEq, Repr

/-- One operation recorded by a `gsk::PathBuilder`. -/
inductive PathOp where
  | moveTo (x y : F32)
  | lineTo (x y : F32)
  | close
  | addCircle (center : GPoint) (radius : F32)
deriving DecidableEq, Repr

/-- `gsk::Path`: the frozen list of builder operations. -/
abbrev GskPath := List PathOp

/-- `gsk::Stroke::new(line_width)`. -/
structure StrokeParams where
  lineWidth : F32
deriving DecidableEq, Repr

/-- `pango::Style` values used by the crate. -/
inductive PangoStyle where
  | normal
  | italic
  | oblique
deriving DecidableEq, Repr

/-- `pango::Weight` values used by the crate. -/
inductive PangoWeight where
  | bold
deriving DecidableEq, Repr

/-- `pango::FontDescription`: a fresh one has every field unset. -/
structure FontDescription where
  family : Option String := none
  absoluteSize : Option F32 := none
  style : Option PangoStyle := none
  weight : Option PangoWeight := none
deriving DecidableEq, Repr

/-- `pango::SCALE`. -/
def PANGO_SCALE : F32 := 1024

/-- A pixel rectangle as returned by `pango::Layout::pixel_extents` (logical part). -/
structure PixelRect where
  x : Int
  y : Int
  width : Int
  height : Int
deriving DecidableEq, Repr

/-- `pango::Layout`: text and font description set by the caller, plus the
external text-measurement engine modelled as an oracle giving the logical
pixel extents of the configured layout. -/
structure Layout where
  measure : String → Option FontDescription → PixelRect
  text : String := ""
  fontDescription : Option FontDescription := none

/-- `Layout::pixel_extents`, logical component (the ink component is unused). -/
def Layout.pixelExtents (l : Layout) : PixelRect :=
  l.measure l.text l.fontDescription

/-- One operation appended to a `gtk::Snapshot` recorder. -/
inductive SnapOp where
  | appendColor (color : RGBA) (bounds : GRect)
  | appendStroke (path : GskPath) (stroke : StrokeParams) (color : RGBA)
  | appendBorder (outline : GRect) (cornerRadius : F32) (borderWidth : List F32)
      (borderColor : List RGBA)
  | appendFill (path : GskPath) (fillRule : FillRule) (color : RGBA)
  | appendLayout (text : String) (font : Option FontDescription) (color : RGBA)
  | save
  | restore
  | translate (point : GPoint)
  | rotate (angleDeg : F32)
  | scale (scaleX scaleY : F32)
  | pushClip (bounds : GRect)
  | pop
deriving DecidableEq, Repr

/-- `gtk::Snapshot`: the ordered log of recorded operations. -/
abbrev GtkSnapshot := List SnapOp

/-- `gtk::Snapshot::to_node`: the frozen render node, or `none` when the
snapshot recorded nothing. -/
def GtkSnapshot.toNode (s : GtkSnapshot) : Option GtkSnapshot :=
  if s = [] then none else some s

/-- `plotters_backend::BackendCoord`: a pair of `i32`. -/
abbrev BackendCoord := Int × Int

/-- `plotters_backend::BackendColor`. -/
structure BackendColor where
  alpha : F32
  rgb : Nat × Nat × Nat
deriving DecidableEq, Repr

/-- `BackendColorExt::to_rgba` from `src/common.rs` / `src/snapshot.rs`. -/
def BackendColor.to_rgba (c : BackendColor) : RGBA :=
  ⟨(c.rgb.1 : F32) / 255, (c.rgb.2.1 : F32) / 255, (c.rgb.2.2 : F32) / 255, c.alpha⟩

/-- `plotters_backend::BackendStyle`: the data a style exposes
(`color()` and `stroke_width()`, the latter a `u32`). -/
structure BackendStyle where
  color : BackendColor
  stroke_width : Nat
deriving DecidableEq, Repr

/-- `plotters_backend::FontStyle`. -/
inductive FontStyle where
  | normal
  | oblique
  | italic
  | bold
deriving DecidableEq, Repr

/-- `plotters_backend::text_anchor::HPos`. -/
inductive HPos where
  | left
  | right
  | center
deriving DecidableEq, Repr

/-- `plotters_backend::text_anchor::VPos`. -/
inductive VPos where
  | top
  | center
  | bottom
deriving DecidableEq, Repr

/-- `plotters_backend::text_anchor::Pos`. -/
structure AnchorPos where
  h_pos : HPos
  v_pos : VPos
deriving DecidableEq, Repr

/-- `plotters_backend::FontTransform`. -/
inductive FontTransform where
  | none
  | rotate90
  | rotate180
  | rotate270
deriving DecidableEq, Repr

/-- `plotters_backend::BackendTextStyle`: the data a text style exposes. -/
structure BackendTextStyle where
  color : BackendColor
  family : String
  size : F32
  style : FontStyle
  anchor : AnchorPos
  transform : FontTransform
deriving Repr

/-- `plotters_backend::DrawingErrorKind<Infallible>`: the `DrawingError`
variant carries an `Infallible` and is uninhabited, so only `FontError`
remains representable. -/
inductive DrawingErrorKind where
  | fontError (cause : String)
deriving DecidableEq, Repr

instance {ε α : Type} [DecidableEq ε] [DecidableEq α] : DecidableEq (Except ε α) :=
  fun a b =>
    match a, b with
    | .ok x, .ok y =>
      if h : x = y then .isTrue (by rw [h]) else .isFalse (by intro hc; cases hc; exact h rfl)
    | .error x, .error y =>
      if h : x = y then .isTrue (by rw [h]) else .isFalse (by intro hc; cases hc; exact h rfl)
    | .ok _, .error _ => .isFalse (by intro hc; cases hc)
    | .error _, .ok _ => .isFalse (by intro hc; cases hc)

namespace common

/-- `FILL_RULE` constant of `src/common.rs`. -/
def FILL_RULE : FillRule := .winding

/-- `common::draw_pixel`. -/
def draw_pixel (snapshot : GtkSnapshot) (point : BackendCoord) (color : BackendColor) :
    Except DrawingErrorKind GtkSnapshot :=
  .ok (snapshot ++ [.appendColor color.to_rgba ⟨(point.1 : F32), (point.2 : F32), 1, 1⟩])

/-- `common::draw_line`. -/
def draw_line (snapshot : GtkSnapshot) (from_ to_ : BackendCoord) (style : BackendStyle) :
    Except DrawingErrorKind GtkSnapshot :=
  let path : GskPath :=
    [.moveTo (from_.1 : F32) (from_.2 : F32), .lineTo (to_.1 : F32) (to_.2 : F32)]
  let stroke : StrokeParams := ⟨(style.stroke_width : F32)⟩
  .ok (snapshot ++ [.appendStroke path stroke style.color.to_rgba])

/-- `common::draw_rect`. -/
def draw_rect (snapshot : GtkSnapshot) (upper_left bottom_right : BackendCoord)
    (style : BackendStyle) (fill : Bool) : Except DrawingErrorKind GtkSnapshot :=
  let bounds : GRect :=
    ⟨(upper_left.1 : F32), (upper_left.2 : F32),
      ((bottom_right.1 - upper_left.1 : Int) : F32),
      ((bottom_right.2 - upper_left.2 : Int) : F32)⟩
  if fill then
    .ok (snapshot ++ [.appendColor style.color.to_rgba bounds])
  else
    .ok (snapshot ++
      [.appendBorder bounds 0
        [(style.stroke_width : F32), (style.stroke_width : F32),
          (style.stroke_width : F32), (style.stroke_width : F32)]
        [style.color.to_rgba, style.color.to_rgba, style.color.to_rgba,
          style.color.to_rgba]])

/-- `common::draw_path`. -/
def draw_path (snapshot : GtkSnapshot) (raw_path : List BackendCoord)
    (style : BackendStyle) : Except DrawingErrorKind GtkSnapshot :=
  match raw_path with
  | [] => .ok snapshot
  | (x, y) :: rest =>
    let pathBuilder : GskPath :=
      .moveTo (x : F32) (y : F32) ::
        rest.map (fun p => PathOp.lineTo (p.1 : F32) (p.2 : F32))
    let path := pathBuilder
    let stroke : StrokeParams := ⟨(style.stroke_width : F32)⟩
    .ok (snapshot ++ [.appendStroke path stroke style.color.to_rgba])

/-- `common::fill_polygon`. -/
def fill_polygon (snapshot : GtkSnapshot) (vert : List BackendCoord)
    (style : BackendStyle) : Except DrawingErrorKind GtkSnapshot :=
  match vert with
  | [] => .ok snapshot
  | (x, y) :: rest =>
    let pathBuilder : GskPath :=
      .moveTo (x : F32) (y : F32) ::
        rest.map (fun p => PathOp.lineTo (p.1 : F32) (p.2 : F32))
    let path := pathBuilder ++ [.close]
    .ok (snapshot ++ [.appendFill path FILL_RULE style.color.to_rgba])

/-- `common::draw_circle`. -/
def draw_circle (snapshot : GtkSnapshot) (center : BackendCoord) (radius : Nat)
    (style : BackendStyle) (fill : Bool) : Except DrawingErrorKind GtkSnapshot :=
  let path : GskPath := [.addCircle ⟨(center.1 : F32), (center.2 : F32)⟩ (radius : F32)]
  if fill then
    .ok (snapshot ++ [.appendFill path FILL_RULE style.color.to_rgba])
  else
    let stroke : StrokeParams := ⟨(style.stroke_width : F32)⟩
    .ok (snapshot ++ [.appendStroke path stroke style.color.to_rgba])

/-- `common::layout_set_style`. -/
def layout_set_style (layout : Layout) (style : BackendTextStyle) : Layout :=
  let fontDesc : FontDescription := {}
  let fontDesc := { fontDesc with family := some style.family }
  let fontDesc := { fontDesc with absoluteSize := some (style.size * PANGO_SCALE) }
  let fontDesc :=
    match style.style with
    | .normal => { fontDesc with style := some PangoStyle.normal }
    | .bold => { fontDesc with weight := some PangoWeight.bold }
    | .italic => { fontDesc with style := some PangoStyle.italic }
    | .oblique => { fontDesc with style := some PangoStyle.oblique }
  { layout with fontDescription := some fontDesc }

/-- `common::estimate_text_size`: returns the updated layout together with
the `(u32, u32)` pixel size (`as u32` is a wrapping cast from `i32`). -/
def estimate_text_size (layout : Layout) (text : String) (style : BackendTextStyle) :
    Except DrawingErrorKind (Layout × Nat × Nat) :=
  let layout := { layout with text := text }
  let layout := layout_set_style layout style
  let ext := layout.pixelExtents
  .ok (layout, ((ext.width % (2 ^ 32 : Int)).toNat, (ext.height % (2 ^ 32 : Int)).toNat))

/-- `common::draw_text`: returns the updated snapshot log and layout. -/
def draw_text (snapshot : GtkSnapshot) (layout : Layout) (text : String)
    (style : BackendTextStyle) (pos : BackendCoord) :
    Except DrawingErrorKind (GtkSnapshot × Layout) :=
  let layout := { layout with text := text }
  let layout := layout_set_style layout style
  let snapshot := snapshot ++ [.save]
  let extents := layout.pixelExtents
  let dx : F32 :=
    match style.anchor.h_pos with
    | .left => 0
    | .center => -(extents.width : F32) / 2
    | .right => -(extents.width : F32)
  let dy : F32 :=
    match style.anchor.v_pos with
    | .top => (extents.height : F32)
    | .center => (extents.height : F32) / 2
    | .bottom => 0
  let rotate : F32 :=
    match style.transform with
    | .none => 0
    | .rotate90 => 90
    | .rotate180 => 180
    | .rotate270 => 270
  let snapshot :=
    if rotate = 0 then
      snapshot ++
        [.translate ⟨(pos.1 : F32) + dx, (pos.2 : F32) + dy - (extents.height : F32)⟩]
    else
      snapshot ++
        [.translate ⟨(pos.1 : F32), (pos.2 : F32)⟩, .rotate rotate,
          .translate ⟨dx, dy - (extents.height : F32)⟩]
  let snapshot :=
    snapshot ++ [.appendLayout layout.text layout.fontDescription style.color.to_rgba]
  let snapshot := snapshot ++ [.restore]
  .ok (snapshot, layout)

end common

namespace snapshotMod

/-- `FILL_RULE` constant of `src/snapshot.rs`. -/
def FILL_RULE : FillRule := .evenOdd

/-- `SnapshotBackend` of `src/snapshot.rs`: a borrowed recorder log,
a pango layout and the fixed canvas size. -/
structure SnapshotBackend where
  snapshot : GtkSnapshot
  layout : Layout
  width : Nat
  height : Nat

/-- `SnapshotBackend::new`: the layout comes from the external pango font
map, so it is a parameter of the embedding. -/
def SnapshotBackend.new (snapshot : GtkSnapshot) (layout : Layout)
    (size : Nat × Nat) : SnapshotBackend :=
  ⟨snapshot, layout, size.1, size.2⟩

/-- `DrawingBackend::get_size` for `SnapshotBackend`. -/
def SnapshotBackend.get_size (b : SnapshotBackend) : Nat × Nat :=
  (b.width, b.height)

/-- `DrawingBackend::ensure_prepared` for `SnapshotBackend`. -/
def SnapshotBackend.ensure_prepared (b : SnapshotBackend) :
    SnapshotBackend × Except DrawingErrorKind Unit :=
  (b, .ok ())

/-- `DrawingBackend::present` for `SnapshotBackend`. -/
def SnapshotBackend.present (b : SnapshotBackend) :
    SnapshotBackend × Except DrawingErrorKind Unit :=
  (b, .ok ())

/-- `SnapshotBackend::draw_pixel`. -/
def SnapshotBackend.draw_pixel (b : SnapshotBackend) (point : BackendCoord)
    (color : BackendColor) : SnapshotBackend × Except DrawingErrorKind Unit :=
  ({ b with snapshot := b.snapshot ++
      [.appendColor color.to_rgba ⟨(point.1 : F32), (point.2 : F32), 1, 1⟩] }, .ok ())

/-- `SnapshotBackend::draw_line`. -/
def SnapshotBackend.draw_line (b : SnapshotBackend) (from_ to_ : BackendCoord)
    (style : BackendStyle) : SnapshotBackend × Except DrawingErrorKind Unit :=
  let path : GskPath :=
    [.moveTo (from_.1 : F32) (from_.2 : F32), .lineTo (to_.1 : F32) (to_.2 : F32)]
  let stroke : StrokeParams := ⟨(style.stroke_width : F32)⟩
  ({ b with snapshot := b.snapshot ++
      [.appendStroke path stroke style.color.to_rgba] }, .ok ())

/-- `SnapshotBackend::draw_rect`. -/
def SnapshotBackend.draw_rect (b : SnapshotBackend)
    (upper_left bottom_right : BackendCoord) (style : BackendStyle) (fill : Bool) :
    SnapshotBackend × Except DrawingErrorKind Unit :=
  let bounds : GRect :=
    ⟨(upper_left.1 : F32), (upper_left.2 : F32),
      ((bottom_right.1 - upper_left.1 : Int) : F32),
      ((bottom_right.2 - upper_left.2 : Int) : F32)⟩
  if fill then
    ({ b with snapshot := b.snapshot ++
        [.appendColor style.color.to_rgba bounds] }, .ok ())
  else
    ({ b with snapshot := b.snapshot ++
        [.appendBorder bounds 0
          [(style.stroke_width : F32), (style.stroke_width : F32),
            (style.stroke_width : F32), (style.stroke_width : F32)]
          [style.color.to_rgba, style.color.to_rgba, style.color.to_rgba,
            style.color.to_rgba]] }, .ok ())

/-- `SnapshotBackend::draw_path`. -/
def SnapshotBackend.draw_path (b : SnapshotBackend) (raw_path : List BackendCoord)
    (style : BackendStyle) : SnapshotBackend × Except DrawingErrorKind Unit :=
  match raw_path with
  | [] => (b, .ok ())
  | (x, y) :: rest =>
    let pathBuilder : GskPath :=
      .moveTo (x : F32) (y : F32) ::
        rest.map (fun p => PathOp.lineTo (p.1 : F32) (p.2 : F32))
    let path := pathBuilder
    let stroke : StrokeParams := ⟨(style.stroke_width : F32)⟩
    ({ b with snapshot := b.snapshot ++
        [.appendStroke path stroke style.color.to_rgba] }, .ok ())

/-- `SnapshotBackend::fill_polygon`. -/
def SnapshotBackend.fill_polygon (b : SnapshotBackend) (vert : List BackendCoord)
    (style : BackendStyle) : SnapshotBackend × Except DrawingErrorKind Unit :=
  match vert with
  | [] => (b, .ok ())
  | (x, y) :: rest =>
    let pathBuilder : GskPath :=
      .moveTo (x : F32) (y : F32) ::
        rest.map (fun p => PathOp.lineTo (p.1 : F32) (p.2 : F32))
    let path := pathBuilder ++ [.close]
    ({ b with snapshot := b.snapshot ++
        [.appendFill path FILL_RULE style.color.to_rgba] }, .ok ())

/-- `SnapshotBackend::draw_circle`. -/
def SnapshotBackend.draw_circle (b : SnapshotBackend) (center : BackendCoord)
    (radius : Nat) (style : BackendStyle) (fill : Bool) :
    SnapshotBackend × Except DrawingErrorKind Unit :=
  let path : GskPath := [.addCircle ⟨(center.1 : F32), (center.2 : F32)⟩ (radius : F32)]
  if fill then
    ({ b with snapshot := b.snapshot ++
        [.appendFill path FILL_RULE style.color.to_rgba] }, .ok ())
  else
    let stroke : StrokeParams := ⟨(style.stroke_width : F32)⟩
    ({ b with snapshot := b.snapshot ++
        [.appendStroke path stroke style.color.to_rgba] }, .ok ())

/-- `SnapshotBackend::set_layout_style` (same body as `common::layout_set_style`). -/
def SnapshotBackend.set_layout_style (b : SnapshotBackend) (style : BackendTextStyle) :
    SnapshotBackend :=
  let fontDesc : FontDescription := {}
  let fontDesc := { fontDesc with family := some style.family }
  let fontDesc := { fontDesc with absoluteSize := some (style.size * PANGO_SCALE) }
  let fontDesc :=
    match style.style with
    | .normal => { fontDesc with style := some PangoStyle.normal }
    | .bold => { fontDesc with weight := some PangoWeight.bold }
    | .italic => { fontDesc with style := some PangoStyle.italic }
    | .oblique => { fontDesc with style := some PangoStyle.oblique }
  { b with layout := { b.layout with fontDescription := some fontDesc } }

/-- `SnapshotBackend::estimate_text_size`. -/
def SnapshotBackend.estimate_text_size (b : SnapshotBackend) (text : String)
    (style : BackendTextStyle) :
    SnapshotBackend × Except DrawingErrorKind (Nat × Nat) :=
  let b : SnapshotBackend := { b with layout := { b.layout with text := text } }
  let b := b.set_layout_style style
  let ext := b.layout.pixelExtents
  (b, .ok ((ext.width % (2 ^ 32 : Int)).toNat, (ext.height % (2 ^ 32 : Int)).toNat))

/-- `SnapshotBackend::draw_text`. -/
def SnapshotBackend.draw_text (b : SnapshotBackend) (text : String)
    (style : BackendTextStyle) (pos : BackendCoord) :
    SnapshotBackend × Except DrawingErrorKind Unit :=
  let b : SnapshotBackend := { b with layout := { b.layout with text := text } }
  let b := b.set_layout_style style
  let b : SnapshotBackend := { b with snapshot := b.snapshot ++ [.save] }
  let extents := b.layout.pixelExtents
  let dx : F32 :=
    match style.anchor.h_pos with
    | .left => 0
    | .right => -(extents.width : F32)
    | .center => -(extents.width : F32) / 2
  let dy : F32 :=
    match style.anchor.v_pos with
    | .top => (extents.height : F32)
    | .center => (extents.height : F32) / 2
    | .bottom => 0
  let rotate : F32 :=
    match style.transform with
    | .none => 0
    | .rotate90 => 90
    | .rotate180 => 180
    | .rotate270 => 270
  let b : SnapshotBackend :=
    if rotate = 0 then
      { b with snapshot := b.snapshot ++
          [.translate ⟨(pos.1 : F32) + dx, (pos.2 : F32) + dy - (extents.height : F32)⟩] }
    else
      { b with snapshot := b.snapshot ++
          [.translate ⟨(pos.1 : F32), (pos.2 : F32)⟩, .rotate rotate,
            .translate ⟨dx, dy - (extents.height : F32)⟩] }
  let b : SnapshotBackend := { b with snapshot := b.snapshot ++
      [.appendLayout b.layout.text b.layout.fontDescription style.color.to_rgba] }
  let b : SnapshotBackend := { b with snapshot := b.snapshot ++ [.restore] }
  (b, .ok ())

end snapshotMod

namespace paintable

/-- A retained `gsk::RenderNode`: the frozen output of a snapshot recorder. -/
abbrev RenderNode := GtkSnapshot

/-- `Paintable` of `src/paintable.rs`: construct-only width and height and a
replaceable optional retained render node. -/
structure Paintable where
  width : Nat
  height : Nat
  node : Option RenderNode
deriving DecidableEq, Repr

/-- `Paintable::new((w, h))`: construct-only properties, empty content. -/
def Paintable.new (size : Nat × Nat) : Paintable :=
  ⟨size.1, size.2, none⟩

/-- `Paintable::size`. -/
def Paintable.size (p : Paintable) : Nat × Nat :=
  (p.width, p.height)

/-- `Paintable::set_node`: replaces the node wholesale (and invalidates
the contents, a host-notification side effect outside the state). -/
def Paintable.set_node (p : Paintable) (node : Option RenderNode) : Paintable :=
  { p with node := node }

/-- `Paintable::clear`. -/
def Paintable.clear (p : Paintable) : Paintable :=
  p.set_node none

/-- An operation appended to the external sink snapshot that a paintable
paints into: either a plain recorder operation or `append_node`. -/
inductive SinkOp where
  | basic (op : SnapOp)
  | appendNode (node : RenderNode)
deriving DecidableEq, Repr

/-- `PaintableImpl::snapshot` of `src/paintable.rs`: paint the retained node
into the sink at the requested size. -/
def Paintable.snapshot_into (p : Paintable) (sink : List SinkOp)
    (width height : F32) : List SinkOp :=
  match p.node with
  | none => sink
  | some node =>
    sink ++
      [.basic .save,
        .basic (.scale (width / (p.width : F32)) (height / (p.height : F32))),
        .basic (.pushClip ⟨0, 0, (p.width : F32), (p.height : F32)⟩),
        .appendNode node,
        .basic .pop,
        .basic .restore]

/-- `PaintableImpl::intrinsic_width`. -/
def Paintable.intrinsic_width (p : Paintable) : Int :=
  (p.width : Int)

/-- `PaintableImpl::intrinsic_height`. -/
def Paintable.intrinsic_height (p : Paintable) : Int :=
  (p.height : Int)

/-- The mutating operations a `Paintable` is subjected to after
construction: `clear`, a commit replacing the node (`set_node`), or a paint
pass (which only reads the node). -/
inductive PaintableOp where
  | clear
  | commit (node : Option RenderNode)
  | paint (width height : F32)
deriving DecidableEq, Repr

/-- Effect of one `PaintableOp` on the paintable state (painting borrows the
node and leaves the paintable unchanged). -/
def Paintable.applyOp (p : Paintable) : PaintableOp → Paintable
  | .clear => p.clear
  | .commit node => p.set_node node
  | .paint _ _ => p

/-- `PaintableBackend` of `src/paintable.rs`: an optional owned recorder, the
target paintable, a pango layout and the cached size. -/
structure PaintableBackend where
  snapshot : Option GtkSnapshot
  paintable : Paintable
  layout : Layout
  size : Nat × Nat

/-- `PaintableBackend::new`: the layout comes from the external pango font
map, so it is a parameter of the embedding. -/
def PaintableBackend.new (paintable : Paintable) (layout : Layout) :
    PaintableBackend :=
  ⟨none, paintable, layout, paintable.size⟩

/-- `DrawingBackend::get_size` for `PaintableBackend`. -/
def PaintableBackend.get_size (b : PaintableBackend) : Nat × Nat :=
  b.size

/-- `DrawingBackend::ensure_prepared` for `PaintableBackend`: creates the
recorder when absent. -/
def PaintableBackend.ensure_prepared (b : PaintableBackend) :
    PaintableBackend × Except DrawingErrorKind Unit :=
  match b.snapshot with
  | none => ({ b with snapshot := some [] }, .ok ())
  | some _ => (b, .ok ())

/-- `DrawingBackend::present` for `PaintableBackend`: takes the recorder, if
any, and commits its node to the paintable. -/
def PaintableBackend.present (b : PaintableBackend) :
    PaintableBackend × Except DrawingErrorKind Unit :=
  match b.snapshot with
  | some s =>
    ({ b with snapshot := none, paintable := b.paintable.set_node s.toNode }, .ok ())
  | none => (b, .ok ())

/-- `Drop::drop` for `PaintableBackend`: same take-and-commit as `present`.
The result is the final state of the paintable (and the dead backend). -/
def PaintableBackend.dropped (b : PaintableBackend) : PaintableBackend :=
  match b.snapshot with
  | some s =>
    { b with snapshot := none, paintable := b.paintable.set_node s.toNode }
  | none => b

/-- `PaintableBackend::snapshot` helper: `self.snapshot.as_ref().expect(..)`.
`none` models the panic "backend was not prepared". -/
def PaintableBackend.snapshot_ref (b : PaintableBackend) : Option GtkSnapshot :=
  b.snapshot

/-- Lift a `common` primitive acting on the recorder log to the
`PaintableBackend`: panics (`none`) when the recorder was never prepared,
exactly like the `expect` in `PaintableBackend::snapshot`. -/
def PaintableBackend.onSnapshot (b : PaintableBackend)
    (f : GtkSnapshot → Except DrawingErrorKind GtkSnapshot) :
    Option (PaintableBackend × Except DrawingErrorKind Unit) :=
  match b.snapshot_ref with
  | none => none
  | some s =>
    match f s with
    | .ok s' => some ({ b with snapshot := some s' }, .ok ())
    | .error e => some (b, .error e)

/-- `PaintableBackend::draw_pixel` (delegates to `common::draw_pixel`). -/
def PaintableBackend.draw_pixel (b : PaintableBackend) (point : BackendCoord)
    (color : BackendColor) : Option (PaintableBackend × Except DrawingErrorKind Unit) :=
  b.onSnapshot (fun s => common.draw_pixel s point color)

/-- `PaintableBackend::draw_line` (delegates to `common::draw_line`). -/
def PaintableBackend.draw_line (b : PaintableBackend) (from_ to_ : BackendCoord)
    (style : BackendStyle) : Option (PaintableBackend × Except DrawingErrorKind Unit) :=
  b.onSnapshot (fun s => common.draw_line s from_ to_ style)

/-- `PaintableBackend::draw_rect` (delegates to `common::draw_rect`). -/
def PaintableBackend.draw_rect (b : PaintableBackend)
    (upper_left bottom_right : BackendCoord) (style : BackendStyle) (fill : Bool) :
    Option (PaintableBackend × Except DrawingErrorKind Unit) :=
  b.onSnapshot (fun s => common.draw_rect s upper_left bottom_right style fill)

/-- `PaintableBackend::draw_path` (delegates to `common::draw_path`). -/
def PaintableBackend.draw_path (b : PaintableBackend) (raw_path : List BackendCoord)
    (style : BackendStyle) : Option (PaintableBackend × Except DrawingErrorKind Unit) :=
  b.onSnapshot (fun s => common.draw_path s raw_path style)

/-- `PaintableBackend::fill_polygon` (delegates to `common::fill_polygon`). -/
def PaintableBackend.fill_polygon (b : PaintableBackend) (vert : List BackendCoord)
    (style : BackendStyle) : Option (PaintableBackend × Except DrawingErrorKind Unit) :=
  b.onSnapshot (fun s => common.fill_polygon s vert style)

/-- `PaintableBackend::draw_circle` (delegates to `common::draw_circle`). -/
def PaintableBackend.draw_circle (b : PaintableBackend) (center : BackendCoord)
    (radius : Nat) (style : BackendStyle) (fill : Bool) :
    Option (PaintableBackend × Except DrawingErrorKind Unit) :=
  b.onSnapshot (fun s => common.draw_circle s center radius style fill)

/-- `PaintableBackend::estimate_text_size` (delegates to
`common::estimate_text_size`; uses only the layout, never the recorder). -/
def PaintableBackend.estimate_text_size (b : PaintableBackend) (text : String)
    (style : BackendTextStyle) :
    PaintableBackend × Except DrawingErrorKind (Nat × Nat) :=
  match common.estimate_text_size b.layout text style with
  | .ok (layout', size') => ({ b with layout := layout' }, .ok size')
  | .error e => (b, .error e)

/-- `PaintableBackend::draw_text` (delegates to `common::draw_text`; panics
(`none`) when the recorder was never prepared). -/
def PaintableBackend.draw_text (b : PaintableBackend) (text : String)
    (style : BackendTextStyle) (pos : BackendCoord) :
    Option (PaintableBackend × Except DrawingErrorKind Unit) :=
  match b.snapshot_ref with
  | none => none
  | some s =>
    match common.draw_text s b.layout text style pos with
    | .ok (s', layout') =>
      some ({ b with snapshot := some s', layout := layout' }, .ok ())
    | .error e => some (b, .error e)

end paintable

/-- Accumulated transform modifications of a snapshot recorder state. -/
inductive XfOp where
  | translate (point : GPoint)
  | rotate (angleDeg : F32)
  | scale (scaleX scaleY : F32)
deriving DecidableEq, Repr

/-- The transform-relevant state of a `gtk::Snapshot`: the current transform
(as the ordered list of modifications since the root) and the stack of
states pushed by `save`. -/
structure TransformState where
  current : List XfOp
  stack : List (List XfOp)
deriving DecidableEq, Repr

/-- Effect of one recorded operation on the transform state: `save` pushes
the current state, `restore` pops it, the transform operations extend the
current transform, and every append operation leaves the state unchanged. -/
def TransformState.step (st : TransformState) : SnapOp → TransformState
  | .save => ⟨st.current, st.current :: st.stack⟩
  | .restore =>
    match st.stack with
    | [] => st
    | c :: rest => ⟨c, rest⟩
  | .translate p => ⟨st.current ++ [.translate p], st.stack⟩
  | .rotate a => ⟨st.current ++ [.rotate a], st.stack⟩
  | .scale sx sy => ⟨st.current ++ [.scale sx sy], st.stack⟩
  | _ => st

/-- Run a recorded operation log from a transform state. -/
def TransformState.run (st : TransformState) (ops : GtkSnapshot) : TransformState :=
  ops.foldl TransformState.step st

/-- Number of nodes an operation log appends at its top level (the
transform/clip bookkeeping operations append no node). -/
def SnapOp.isNode : SnapOp → Bool
  | .appendColor _ _ => true
  | .appendStroke _ _ _ => true
  | .appendBorder _ _ _ _ => true
  | .appendFill _ _ _ => true
  | .appendLayout _ _ _ => true
  | _ => false

/-- Count of appended nodes in a recorder log. -/
def nodeCount (s : GtkSnapshot) : Nat :=
  (s.filter SnapOp.isNode).length

/-- A concrete measurement oracle: every layout has logical pixel extents
50 × 20 (used to instantiate the external pango engine on examples). -/
def testMeasure : String → Option FontDescription → PixelRect :=
  fun _ _ => ⟨0, 0, 50, 20⟩

/-- A concrete layout over `testMeasure`. -/
def testLayout : Layout :=
  ⟨testMeasure, "", none⟩

/-- A concrete opaque black color. -/
def testColor : BackendColor :=
  ⟨1, (0, 0, 0)⟩

/-- A concrete style: black, stroke width 1. -/
def testStyle : BackendStyle :=
  ⟨testColor, 1⟩

/-- A concrete text style with a chosen anchor and no rotation. -/
def testTextStyle (anchor : AnchorPos) : BackendTextStyle :=
  ⟨testColor, "sans", 12, FontStyle.normal, anchor, FontTransform.none⟩

/-- A concrete self-intersecting (bowtie) polygon. -/
def bowtie : List BackendCoord :=
  [(0, 0), (4, 0), (0, 4), (4, 4)]

/-- The horizontal anchor offset `dx` computed inside `draw_text`
(`src/common.rs` and `src/snapshot.rs` contain the same match). -/
def text_dx (style : BackendTextStyle) (extents : PixelRect) : F32 :=
  match style.anchor.h_pos with
  | .left => 0
  | .center => -(extents.width : F32) / 2
  | .right => -(extents.width : F32)

/-- The vertical anchor offset `dy` computed inside `draw_text`. -/
def text_dy (style : BackendTextStyle) (extents : PixelRect) : F32 :=
  match style.anchor.v_pos with
  | .top => (extents.height : F32)
  | .center => (extents.height : F32) / 2
  | .bottom => 0

/-- The rotation angle in degrees computed inside `draw_text`. -/
def text_angle (style : BackendTextStyle) : F32 :=
  match style.transform with
  | .none => 0
  | .rotate90 => 90
  | .rotate180 => 180
  | .rotate270 => 270

/-- The operation sequence `draw_text` appends for a given style, position
and measured extents: a save, the anchor/rotation transform (a single
translate when the transform is `None`, otherwise translate-to-position,
rotate by the mapped angle, translate by the offsets), exactly one text
node, and a restore.  The final vertical delta is the vertical anchor
offset minus the full extents height. -/
def textOps (style : BackendTextStyle) (pos : BackendCoord) (extents : PixelRect)
    (fd : Option FontDescription) (text : String) : List SnapOp :=
  SnapOp.save ::
    ((if style.transform = FontTransform.none then
        [SnapOp.translate
          ⟨(pos.1 : F32) + text_dx style extents,
            (pos.2 : F32) + text_dy style extents - (extents.height : F32)⟩]
      else
        [SnapOp.translate ⟨(pos.1 : F32), (pos.2 : F32)⟩,
          SnapOp.rotate (text_angle style),
          SnapOp.translate
            ⟨text_dx style extents,
              text_dy style extents - (extents.height : F32)⟩]) ++
      [SnapOp.appendLayout text fd style.color.to_rgba, SnapOp.restore])

/-- Node counts add over concatenated recorder logs. -/
theorem nodeCount_append (s l : GtkSnapshot) :
    nodeCount (s ++ l) = nodeCount s + nodeCount l := by
  simp [nodeCount, List.filter_append]

/-- Running a concatenated log is running the two parts in sequence. -/
theorem TransformState.run_append (st : TransformState) (s l : GtkSnapshot) :
    st.run (s ++ l) = (st.run s).run l := by
  simp [TransformState.run, List.foldl_append]

/-- C1: for every non-empty coordinate sequence and every style,
`fill_polygon` builds move-to, line-tos, then an explicit close as the last
path operation, and appends exactly one filled node, in both the shared
(`common.rs`, winding rule) and the `SnapshotBackend` (`snapshot.rs`,
even-odd rule) variants, regardless of the coordinates themselves. -/
theorem fill_polygon_closes_path (s : GtkSnapshot) (v : BackendCoord)
    (rest : List BackendCoord) (style : BackendStyle)
    (b : snapshotMod.SnapshotBackend) :
    common.fill_polygon s (v :: rest) style =
      .ok (s ++ [.appendFill
        (PathOp.moveTo (v.1 : F32) (v.2 : F32) ::
          (rest.map (fun p => PathOp.lineTo (p.1 : F32) (p.2 : F32)) ++ [.close]))
        common.FILL_RULE style.color.to_rgba]) ∧
    b.fill_polygon (v :: rest) style =
      ({ b with snapshot := b.snapshot ++ [.appendFill
          (PathOp.moveTo (v.1 : F32) (v.2 : F32) ::
            (rest.map (fun p => PathOp.lineTo (p.1 : F32) (p.2 : F32)) ++ [.close]))
          snapshotMod.FILL_RULE style.color.to_rgba] }, .ok ()) := by
  exact ⟨rfl, rfl⟩

/-- C5: with an empty coordinate sequence, `draw_path` and `fill_polygon`
leave the recorder log unchanged (zero appended nodes) and return success,
in both backend variants. -/
theorem empty_sequence_noop (s : GtkSnapshot) (style : BackendStyle)
    (b : snapshotMod.SnapshotBackend) :
    common.draw_path s [] style = .ok s ∧
    common.fill_polygon s [] style = .ok s ∧
    b.draw_path [] style = (b, .ok ()) ∧
    b.fill_polygon [] style = (b, .ok ()) := by
  exact ⟨rfl, rfl, rfl, rfl⟩

/-- C6: the shared primitives (`common.rs`, used by the surface-backed
backend) fill with the nonzero-winding rule while `SnapshotBackend`
(`snapshot.rs`) fills with the even-odd rule, so on a concrete
self-intersecting polygon the two variants record different filled nodes. -/
theorem fill_rule_mismatch :
    common.FILL_RULE = FillRule.winding ∧
    snapshotMod.FILL_RULE = FillRule.evenOdd ∧
    common.FILL_RULE ≠ snapshotMod.FILL_RULE ∧
    common.fill_polygon [] bowtie testStyle ≠
      .ok (snapshotMod.SnapshotBackend.fill_polygon
        (snapshotMod.SnapshotBackend.new [] testLayout (10, 10)) bowtie
        testStyle).1.snapshot ∧
    common.draw_circle [] (5, 5) 3 testStyle true ≠
      .ok (snapshotMod.SnapshotBackend.draw_circle
        (snapshotMod.SnapshotBackend.new [] testLayout (10, 10)) (5, 5) 3
        testStyle true).1.snapshot := by
  refine ⟨rfl, rfl, by decide, by decide, by decide⟩

/-- C7: `draw_rect` passes the caller's corners straight through: the bounds
origin is the first corner and the size is bottom-right minus upper-left
(negative when the corners are swapped); a filled call appends exactly one
filled-rectangle node, a stroked call appends exactly one border node whose
four edge widths are the style's stroke width and whose four edge colors
are the style's color — in both backend variants, and a concrete swapped
pair of corners yields a negative-size rectangle unchanged. -/
theorem draw_rect_passthrough (s : GtkSnapshot) (ul br : BackendCoord)
    (style : BackendStyle) (b : snapshotMod.SnapshotBackend) :
    common.draw_rect s ul br style true =
      .ok (s ++ [.appendColor style.color.to_rgba
        ⟨(ul.1 : F32), (ul.2 : F32), ((br.1 - ul.1 : Int) : F32),
          ((br.2 - ul.2 : Int) : F32)⟩]) ∧
    common.draw_rect s ul br style false =
      .ok (s ++ [.appendBorder
        ⟨(ul.1 : F32), (ul.2 : F32), ((br.1 - ul.1 : Int) : F32),
          ((br.2 - ul.2 : Int) : F32)⟩ 0
        [(style.stroke_width : F32), (style.stroke_width : F32),
          (style.stroke_width : F32), (style.stroke_width : F32)]
        [style.color.to_rgba, style.color.to_rgba, style.color.to_rgba,
          style.color.to_rgba]]) ∧
    b.draw_rect ul br style true =
      ({ b with snapshot := b.snapshot ++ [.appendColor style.color.to_rgba
          ⟨(ul.1 : F32), (ul.2 : F32), ((br.1 - ul.1 : Int) : F32),
            ((br.2 - ul.2 : Int) : F32)⟩] }, .ok ()) ∧
    b.draw_rect ul br style false =
      ({ b with snapshot := b.snapshot ++ [.appendBorder
          ⟨(ul.1 : F32), (ul.2 : F32), ((br.1 - ul.1 : Int) : F32),
            ((br.2 - ul.2 : Int) : F32)⟩ 0
          [(style.stroke_width : F32), (style.stroke_width : F32),
            (style.stroke_width : F32), (style.stroke_width : F32)]
          [style.color.to_rgba, style.color.to_rgba, style.color.to_rgba,
            style.color.to_rgba]] }, .ok ()) ∧
    common.draw_rect [] (3, 4) (1, 2) testStyle true =
      .ok [.appendColor testColor.to_rgba ⟨3, 4, -2, -2⟩] := by
  refine ⟨rfl, rfl, rfl, rfl, rfl⟩

/-- Folding any sequence of paintable operations leaves width and height
untouched (only the node field ever changes). -/
theorem foldl_applyOp_size (ops : List paintable.PaintableOp) (p : paintable.Paintable) :
    (ops.foldl paintable.Paintable.applyOp p).width = p.width ∧
    (ops.foldl paintable.Paintable.applyOp p).height = p.height := by
  induction ops generalizing p with
  | nil => exact ⟨rfl, rfl⟩
  | cons op ops ih =>
    have h := ih (p.applyOp op)
    have hw : (p.applyOp op).width = p.width := by cases op <;> rfl
    have hh : (p.applyOp op).height = p.height := by cases op <;> rfl
    exact ⟨by rw [List.foldl_cons, h.1, hw], by rw [List.foldl_cons, h.2, hh]⟩

/-- C9: a paintable constructed with size `(w, h)` reports exactly
`(w, h)` through `width`, `height` and `size` after any sequence of
clear, commit (node replacement) and paint operations. -/
theorem paintable_size_immutable (size : Nat × Nat)
    (ops : List paintable.PaintableOp) :
    (ops.foldl paintable.Paintable.applyOp (paintable.Paintable.new size)).width =
      size.1 ∧
    (ops.foldl paintable.Paintable.applyOp (paintable.Paintable.new size)).height =
      size.2 ∧
    (ops.foldl paintable.Paintable.applyOp (paintable.Paintable.new size)).size =
      size := by
  obtain ⟨h1, h2⟩ := foldl_applyOp_size ops (paintable.Paintable.new size)
  refine ⟨h1, h2, ?_⟩
  rw [paintable.Paintable.size, h1, h2]
  rfl

/-- C8: painting a paintable into a sink at a requested size appends
nothing when no node is committed; otherwise it appends a scoped
save / per-axis scale / clip-to-own-size / retained node / pop / restore
sequence and nothing else. -/
theorem paintable_paint_scoped (p : paintable.Paintable)
    (sink : List paintable.SinkOp) (w h : F32) :
    (p.node = none → p.snapshot_into sink w h = sink) ∧
    (∀ n, p.node = some n → p.snapshot_into sink w h =
      sink ++ [.basic .save,
        .basic (.scale (w / (p.width : F32)) (h / (p.height : F32))),
        .basic (.pushClip ⟨0, 0, (p.width : F32), (p.height : F32)⟩),
        .appendNode n, .basic .pop, .basic .restore]) := by
  constructor
  · intro hn
    unfold paintable.Paintable.snapshot_into
    rw [hn]
  · intro n hn
    unfold paintable.Paintable.snapshot_into
    rw [hn]

/-- C8 witness: a concrete empty paintable paints nothing; a concrete
400×300 paintable with a committed node painted at 800×600 appends the
scoped scale-by-2 sequence. -/
theorem paintable_paint_scoped_witness :
    paintable.Paintable.snapshot_into (paintable.Paintable.new (400, 300)) [] 800 600 =
      [] ∧
    paintable.Paintable.snapshot_into ⟨400, 300, some [SnapOp.save]⟩ [] 800 600 =
      [.basic .save, .basic (.scale 2 2), .basic (.pushClip ⟨0, 0, 400, 300⟩),
        .appendNode [SnapOp.save], .basic .pop, .basic .restore] := by
  refine ⟨(paintable_paint_scoped (paintable.Paintable.new (400, 300)) [] 800 600).1
    rfl, ?_⟩
  rw [(paintable_paint_scoped ⟨400, 300, some [SnapOp.save]⟩ [] 800 600).2
    [SnapOp.save] rfl]
  norm_num

/-- C3: with a live recorder, `present` commits the recorder's node to the
paintable and discards the recorder; a second `present`, or a drop after
`present`, changes nothing further; a drop while still recording performs
exactly the same single commit as `present`. -/
theorem present_commits_exactly_once (b : paintable.PaintableBackend)
    (s : GtkSnapshot) (h : b.snapshot = some s) :
    b.present = ({ b with
        snapshot := none
        paintable := b.paintable.set_node s.toNode }, .ok ()) ∧
    (b.present.1).present = (b.present.1, .ok ()) ∧
    (b.present.1).dropped = b.present.1 ∧
    b.dropped = b.present.1 := by
  have h2 : b.present = ({ b with
      snapshot := none
      paintable := b.paintable.set_node s.toNode }, .ok ()) := by
    unfold paintable.PaintableBackend.present
    rw [h]
  have h3 : b.dropped = { b with
      snapshot := none
      paintable := b.paintable.set_node s.toNode } := by
    unfold paintable.PaintableBackend.dropped
    rw [h]
  refine ⟨h2, ?_, ?_, ?_⟩
  · rw [h2]
    rfl
  · rw [h2]
    rfl
  · rw [h3, h2]

/-- C3 witness: a concrete recording backend over a 400×300 paintable whose
recorder holds one operation commits that node on `present`. -/
theorem present_commits_exactly_once_witness :
    paintable.PaintableBackend.present
        ⟨some [SnapOp.save], paintable.Paintable.new (400, 300), testLayout,
          (400, 300)⟩ =
      (⟨none, ⟨400, 300, some [SnapOp.save]⟩, testLayout, (400, 300)⟩, .ok ()) :=
  (present_commits_exactly_once
    ⟨some [SnapOp.save], paintable.Paintable.new (400, 300), testLayout, (400, 300)⟩
    [SnapOp.save] rfl).1

/-- C2 counterexample: a draw call issued on a freshly constructed
`PaintableBackend`, before `ensure_prepared` ever ran, panics
("backend was not prepared", modelled as `none`) instead of lazily
creating the recorder and succeeding. -/
theorem unprepared_draw_call_panics :
    paintable.PaintableBackend.draw_pixel
      (paintable.PaintableBackend.new (paintable.Paintable.new (400, 300)) testLayout)
      (0, 0) testColor = none := rfl

/-- C2 (amended): `ensure_prepared` is idempotent — it creates the recorder
only when absent and never discards recorded content — but primitive draw
calls do not transition `Idle` to `Recording`: while the recorder is absent
every draw call panics (modelled as `none`), while the measure call
`estimate_text_size` succeeds without touching the recorder. -/
theorem ensure_prepared_idempotent_draw_strict (b : paintable.PaintableBackend)
    (point from_ to_ ul br center pos : BackendCoord) (color : BackendColor)
    (style : BackendStyle) (fill : Bool) (coords : List BackendCoord)
    (radius : Nat) (text : String) (tstyle : BackendTextStyle) :
    b.ensure_prepared.1.ensure_prepared = b.ensure_prepared ∧
    (∀ s, b.snapshot = some s → b.ensure_prepared = (b, .ok ())) ∧
    (b.snapshot = none →
      b.ensure_prepared = ({ b with snapshot := some [] }, .ok ())) ∧
    (b.snapshot = none →
      b.draw_pixel point color = none ∧
      b.draw_line from_ to_ style = none ∧
      b.draw_rect ul br style fill = none ∧
      b.draw_path coords style = none ∧
      b.fill_polygon coords style = none ∧
      b.draw_circle center radius style fill = none ∧
      b.draw_text text tstyle pos = none) ∧
    (∃ r, (b.estimate_text_size text tstyle).2 = .ok r) ∧
    (b.estimate_text_size text tstyle).1.snapshot = b.snapshot := by
  obtain ⟨snap, p, l, sz⟩ := b
  cases snap with
  | none =>
    refine ⟨rfl, ?_, fun _ => rfl, ?_, ⟨_, rfl⟩, rfl⟩
    · intro s hs
      exact Option.noConfusion hs
    · intro _
      exact ⟨rfl, rfl, rfl, rfl, rfl, rfl, rfl⟩
  | some s0 =>
    refine ⟨rfl, fun s _ => rfl, ?_, ?_, ⟨_, rfl⟩, rfl⟩
    · intro hs
      exact Option.noConfusion hs
    · intro hs
      exact Option.noConfusion hs

/-- C2 witness: on a concrete idle backend, `ensure_prepared` twice equals
`ensure_prepared` once, and a pre-preparation `draw_pixel` panics. -/
theorem ensure_prepared_idempotent_draw_strict_witness :
    (paintable.PaintableBackend.new (paintable.Paintable.new (400, 300))
        testLayout).ensure_prepared.1.ensure_prepared =
      (paintable.PaintableBackend.new (paintable.Paintable.new (400, 300))
        testLayout).ensure_prepared ∧
    paintable.PaintableBackend.draw_pixel
      (paintable.PaintableBackend.new (paintable.Paintable.new (400, 300)) testLayout)
      (0, 0) testColor = none := by
  have h := ensure_prepared_idempotent_draw_strict
    (paintable.PaintableBackend.new (paintable.Paintable.new (400, 300)) testLayout)
    (0, 0) (0, 0) (1, 1) (0, 0) (2, 2) (0, 0) (0, 0) testColor testStyle true []
    0 "t" (testTextStyle ⟨HPos.left, VPos.top⟩)
  exact ⟨h.1, (h.2.2.2.1 rfl).1⟩

/-- Unfolding `common::draw_text`: it records exactly the `textOps`
sequence for the trailing extents of the reconfigured layout, and returns
that reconfigured layout. -/
theorem common_draw_text_eq (s : GtkSnapshot) (layout : Layout) (text : String)
    (style : BackendTextStyle) (pos : BackendCoord) :
    common.draw_text s layout text style pos =
      .ok (s ++ textOps style pos
          (common.layout_set_style { layout with text := text } style).pixelExtents
          (common.layout_set_style { layout with text := text } style).fontDescription
          text,
        common.layout_set_style { layout with text := text } style) := by
  obtain ⟨c, fam, sz, fs, ⟨hp, vp⟩, tf⟩ := style
  cases hp <;> cases vp <;> cases tf <;>
    simp [common.draw_text, common.layout_set_style, textOps, text_dx, text_dy,
      text_angle, Layout.pixelExtents]

/-- Unfolding `SnapshotBackend::draw_text`: it records exactly the
`textOps` sequence and stores the reconfigured layout. -/
theorem snapshot_draw_text_eq (b : snapshotMod.SnapshotBackend) (text : String)
    (style : BackendTextStyle) (pos : BackendCoord) :
    b.draw_text text style pos =
      ({ b with
          layout := common.layout_set_style { b.layout with text := text } style
          snapshot := b.snapshot ++ textOps style pos
            (common.layout_set_style { b.layout with text := text } style).pixelExtents
            (common.layout_set_style { b.layout with text := text } style).fontDescription
            text }, .ok ()) := by
  obtain ⟨snap, l, w, h⟩ := b
  obtain ⟨c, fam, sz, fs, ⟨hp, vp⟩, tf⟩ := style
  cases hp <;> cases vp <;> cases tf <;>
    simp [snapshotMod.SnapshotBackend.draw_text,
      snapshotMod.SnapshotBackend.set_layout_style, common.layout_set_style,
      textOps, text_dx, text_dy, text_angle, Layout.pixelExtents]

/-- C4: `draw_text` places text by the anchor offsets (0, −w/2, −w
horizontally; +h, +h/2, 0 vertically) with final vertical delta
`dy − h`: with zero rotation a single translate to
`(pos.x + dx, pos.y + dy − h)`, otherwise translate to `pos`, rotate by
the mapped 90/180/270 angle, translate by `(dx, dy − h)` — in both
variants; concretely, extents 50×20 at (100,100) give translate
(100,100) for Left/Top and (75,90) for Center/Center. -/
theorem draw_text_anchor_placement (s : GtkSnapshot) (layout : Layout)
    (text : String) (style : BackendTextStyle) (pos : BackendCoord)
    (b : snapshotMod.SnapshotBackend) :
    common.draw_text s layout text style pos =
      .ok (s ++ textOps style pos
          (common.layout_set_style { layout with text := text } style).pixelExtents
          (common.layout_set_style { layout with text := text } style).fontDescription
          text,
        common.layout_set_style { layout with text := text } style) ∧
    b.draw_text text style pos =
      ({ b with
          layout := common.layout_set_style { b.layout with text := text } style
          snapshot := b.snapshot ++ textOps style pos
            (common.layout_set_style { b.layout with text := text } style).pixelExtents
            (common.layout_set_style { b.layout with text := text } style).fontDescription
            text }, .ok ()) ∧
    (common.draw_text [] testLayout "t" (testTextStyle ⟨HPos.left, VPos.top⟩)
        (100, 100)).toOption.map Prod.fst =
      some [SnapOp.save, SnapOp.translate ⟨100, 100⟩,
        SnapOp.appendLayout "t"
          (some ⟨some "sans", some 12288, some PangoStyle.normal, none⟩)
          ⟨0, 0, 0, 1⟩,
        SnapOp.restore] ∧
    (common.draw_text [] testLayout "t" (testTextStyle ⟨HPos.center, VPos.center⟩)
        (100, 100)).toOption.map Prod.fst =
      some [SnapOp.save, SnapOp.translate ⟨75, 90⟩,
        SnapOp.appendLayout "t"
          (some ⟨some "sans", some 12288, some PangoStyle.normal, none⟩)
          ⟨0, 0, 0, 1⟩,
        SnapOp.restore] := by
  refine ⟨common_draw_text_eq s layout text style pos,
    snapshot_draw_text_eq b text style pos, ?_, ?_⟩ <;>
  · norm_num [common.draw_text, common.layout_set_style, testLayout, testTextStyle,
      testColor, testMeasure, Layout.pixelExtents, BackendColor.to_rgba, PANGO_SCALE]
    exact ⟨_, rfl⟩

/-- C10: `draw_text` brackets its translate/rotate between a save and a
restore, so the recorder's transform state after the call is exactly the
state before it (later appends are unaffected), while exactly one node is
appended — in both variants. -/
theorem draw_text_transform_scoped (s : GtkSnapshot) (layout : Layout)
    (text : String) (style : BackendTextStyle) (pos : BackendCoord)
    (st : TransformState) (b : snapshotMod.SnapshotBackend) :
    (∀ s' layout', common.draw_text s layout text style pos = .ok (s', layout') →
      TransformState.run st s' = TransformState.run st s ∧
      nodeCount s' = nodeCount s + 1) ∧
    TransformState.run st (b.draw_text text style pos).1.snapshot =
      TransformState.run st b.snapshot ∧
    nodeCount (b.draw_text text style pos).1.snapshot =
      nodeCount b.snapshot + 1 := by
  have hrun : ∀ (st0 : TransformState) (ext : PixelRect)
      (fd : Option FontDescription),
      TransformState.run st0 (textOps style pos ext fd text) = st0 := by
    intro st0 ext fd
    obtain ⟨c, fam, sz, fs, ⟨hp, vp⟩, tf⟩ := style
    cases tf <;> rfl
  have hcount : ∀ (ext : PixelRect) (fd : Option FontDescription),
      nodeCount (textOps style pos ext fd text) = 1 := by
    intro ext fd
    obtain ⟨c, fam, sz, fs, ⟨hp, vp⟩, tf⟩ := style
    cases tf <;> rfl
  refine ⟨?_, ?_, ?_⟩
  · intro s' layout' hcall
    rw [common_draw_text_eq] at hcall
    simp only [Except.ok.injEq, Prod.mk.injEq] at hcall
    obtain ⟨rfl, rfl⟩ := hcall
    rw [TransformState.run_append, nodeCount_append, hrun, hcount]
    exact ⟨rfl, rfl⟩
  · rw [snapshot_draw_text_eq]
    rw [TransformState.run_append, hrun]
  · rw [snapshot_draw_text_eq]
    rw [nodeCount_append, hcount]

/-- C10 witness: at a concrete layout, style and position, the hypothesis
of the scoping theorem is discharged by the concrete `draw_text` equation,
giving transform-state invariance and a single appended node. -/
theorem draw_text_transform_scoped_witness :
    TransformState.run ⟨[], []⟩
        ([] ++ textOps (testTextStyle ⟨HPos.left, VPos.top⟩) (100, 100)
          (common.layout_set_style { testLayout with text := "t" }
            (testTextStyle ⟨HPos.left, VPos.top⟩)).pixelExtents
          (common.layout_set_style { testLayout with text := "t" }
            (testTextStyle ⟨HPos.left, VPos.top⟩)).fontDescription "t") =
      TransformState.run ⟨[], []⟩ [] ∧
    nodeCount
        ([] ++ textOps (testTextStyle ⟨HPos.left, VPos.top⟩) (100, 100)
          (common.layout_set_style { testLayout with text := "t" }
            (testTextStyle ⟨HPos.left, VPos.top⟩)).pixelExtents
          (common.layout_set_style { testLayout with text := "t" }
            (testTextStyle ⟨HPos.left, VPos.top⟩)).fontDescription "t") =
      nodeCount [] + 1 :=
  (draw_text_transform_scoped [] testLayout "t"
      (testTextStyle ⟨HPos.left, VPos.top⟩) (100, 100) ⟨[], []⟩
      (snapshotMod.SnapshotBackend.new [] testLayout (1, 1))).1 _ _
    (common_draw_text_eq [] testLayout "t"
      (testTextStyle ⟨HPos.left, VPos.top⟩) (100, 100))

end PlottersGtk4
